import Mathlib

/-!
Verification of the relational-context sycophancy evaluation harness
(run_evaluation.py) against its specification.

The embedding models the core run loop with an explicit logical clock
(a natural number), an explicit trace of observable actions (service
calls, record appends, output writes), and key errors as an Option
error component, so that the ordering and error-propagation claims of
the specification can be stated and settled.
-/

namespace SycophancyEval

/-- The remote text-generation service, abstracted as a collaborator:
given a prompt it either returns text or fails with a description, and
each call consumes some wall-clock time given by duration. -/
structure Service where
  respond : String → Except String String
  duration : String → Nat

/-- A raw prompt-pair object as parsed from the input document: a record
whose five required keys may each be absent (Python dict access on a
missing key raises KeyError). -/
structure RawPair where
  id : Option String
  category : Option String
  base_question : Option String
  neutral_framing : Option String
  invested_framing : Option String
deriving DecidableEq

/-- A fully-formed prompt pair, with all five required fields present. -/
structure PromptPair where
  id : String
  category : String
  base_question : String
  neutral_framing : String
  invested_framing : String
deriving DecidableEq

/-- View a fully-formed pair as a raw input object with every key present. -/
def PromptPair.toRaw (p : PromptPair) : RawPair :=
  { id := some p.id
    category := some p.category
    base_question := some p.base_question
    neutral_framing := some p.neutral_framing
    invested_framing := some p.invested_framing }

/-- One ResultRecord, mirroring the dict built in run_evaluation:
eight fields, with timestamp the logical clock value read when the
record is created. -/
structure ResultRecord where
  prompt_id : String
  category : String
  base_question : String
  framing_type : String
  full_prompt : String
  response : String
  timestamp : Nat
  model : String
deriving DecidableEq

/-- The metadata object of the structured JSON output document. -/
structure Metadata where
  timestamp : Nat
  model : String
  total_prompts : Nat
deriving DecidableEq

/-- The structured JSON output document written by save results json. -/
structure JsonDoc where
  metadata : Metadata
  results : List ResultRecord
deriving DecidableEq

/-- Observable actions of a run, in order: a service call issued at a
given clock instant, a record appended to the in-memory results list,
and the two end-of-run output writes. -/
inductive Action where
  | callService (time : Nat) (prompt : String)
  | appendRecord (r : ResultRecord)
  | writeJson (doc : JsonDoc)
  | writeCsv (rows : List (List String))
deriving DecidableEq

/-- Whether an action is a service call. -/
def Action.isCall : Action → Bool
  | Action.callService _ _ => true
  | _ => false

/-- Whether an action writes an output artifact. -/
def Action.isWrite : Action → Bool
  | Action.writeJson _ => true
  | Action.writeCsv _ => true
  | _ => false

/-- The evaluator object constructed by the class initializer. -/
structure Evaluator where
  api_key : String
  model : String
deriving DecidableEq

/-- Python truthiness test for an optional string: None and the empty
string are falsy. -/
def falsy : Option String → Bool
  | none => true
  | some s => s = ""

/-- Embedding of the class initializer: resolve the key as
api_key or environment, and fail with ValueError when the resolved
key is falsy. -/
def initEvaluator (api_key env_key : Option String) (model : String) :
    Except String Evaluator :=
  let resolved := if falsy api_key then env_key else api_key
  if falsy resolved then
    Except.error
      "No API key found. Please set ANTHROPIC_API_KEY in .env file or pass api_key parameter."
  else
    Except.ok { api_key := resolved.getD "", model := model }

/-- The prompt-pair source: either unreadable or malformed at the
document level (json.load or the top-level key access fails), or a list
of raw pair objects. -/
inductive Source where
  | invalid (err : String)
  | valid (pairs : List RawPair)

/-- Embedding of load prompt pairs: json.load plus the top-level key
access. Note that it performs no per-field validation of the pairs. -/
def load_prompt_pairs : Source → Except String (List RawPair)
  | Source.invalid e => Except.error e
  | Source.valid ps => Except.ok ps

/-- Embedding of send prompt: the call either returns the response text
or, on any failure, the string ERROR followed by the description, the
try-except converting the exception into a returned marker string. -/
def send_prompt (svc : Service) (prompt : String) : String :=
  match svc.respond prompt with
  | Except.ok text => text
  | Except.error e => "ERROR: " ++ e

/-- Mutable state of the run loop: the logical clock, the trace of
observable actions so far, and the accumulated results list. -/
structure RunState where
  time : Nat
  trace : List Action
  results : List ResultRecord
deriving DecidableEq

/-- Issue a service call: the call is logged at its invocation instant
and the clock advances by the call duration while the call blocks. -/
def sendTimed (svc : Service) (st : RunState) (prompt : String) : RunState :=
  { st with
    time := st.time + svc.duration prompt
    trace := st.trace ++ [Action.callService st.time prompt] }

/-- Append a record to the in-memory results list, logging the append. -/
def appendRec (st : RunState) (r : ResultRecord) : RunState :=
  { st with
    trace := st.trace ++ [Action.appendRecord r]
    results := st.results ++ [r] }

/-- Embedding of one iteration of the run loop body: field accesses in
source order (a missing key aborts with a KeyError at the access
point), the neutral call, the neutral record (its timestamp read after
the call returns), then the invested call and record likewise. -/
def processPair (svc : Service) (model : String) (st : RunState) (pair : RawPair) :
    RunState × Option String :=
  match pair.id with
  | none => (st, some "KeyError: id")
  | some prompt_id =>
  match pair.category with
  | none => (st, some "KeyError: category")
  | some category =>
  match pair.base_question with
  | none => (st, some "KeyError: base_question")
  | some base_question =>
  match pair.neutral_framing with
  | none => (st, some "KeyError: neutral_framing")
  | some neutral_framing =>
  let neutral_response := send_prompt svc neutral_framing
  let st1 := sendTimed svc st neutral_framing
  let st2 := appendRec st1
    { prompt_id := prompt_id
      category := category
      base_question := base_question
      framing_type := "neutral"
      full_prompt := neutral_framing
      response := neutral_response
      timestamp := st1.time
      model := model }
  match pair.invested_framing with
  | none => (st2, some "KeyError: invested_framing")
  | some invested_framing =>
  let invested_response := send_prompt svc invested_framing
  let st3 := sendTimed svc st2 invested_framing
  let st4 := appendRec st3
    { prompt_id := prompt_id
      category := category
      base_question := base_question
      framing_type := "invested"
      full_prompt := invested_framing
      response := invested_response
      timestamp := st3.time
      model := model }
  (st4, none)

/-- The run loop over the pair list: sequential, stopping with the
propagated error as soon as a pair raises. -/
def runLoop (svc : Service) (model : String) :
    RunState → List RawPair → RunState × Option String
  | st, [] => (st, none)
  | st, pair :: rest =>
    match processPair svc model st pair with
    | (st1, none) => runLoop svc model st1 rest
    | (st1, some e) => (st1, some e)

/-- The CSV column names, in the order defined in save results csv. -/
def fieldnames : List String :=
  ["prompt_id", "category", "base_question", "framing_type",
   "full_prompt", "response", "timestamp", "model"]

/-- One CSV data row: the record field values in fieldnames order, the
timestamp rendered as text. -/
def recordToRow (r : ResultRecord) : List String :=
  [r.prompt_id, r.category, r.base_question, r.framing_type,
   r.full_prompt, r.response, toString r.timestamp, r.model]

/-- Embedding of save results json: the structured document with run
metadata (total prompts is the length of the results list) and the
results list verbatim. -/
def save_results_json (results : List ResultRecord) (model : String)
    (timestamp : Nat) : JsonDoc :=
  { metadata :=
      { timestamp := timestamp
        model := model
        total_prompts := results.length }
    results := results }

/-- Embedding of save results csv: the header row followed by one data
row per record, in list order. -/
def save_results_csv (results : List ResultRecord) : List (List String) :=
  fieldnames :: results.map recordToRow

/-- The observable outcome of run evaluation: the propagated error if
any, the returned results list, the full action trace, and the two
output artifacts (absent when an exception propagated before the save
calls). -/
structure RunOutcome where
  err : Option String
  results : List ResultRecord
  trace : List Action
  jsonOut : Option JsonDoc
  csvOut : Option (List (List String))
deriving DecidableEq

/-- Embedding of run evaluation: load the pairs, record the run
timestamp, iterate the loop, and on normal completion perform the
single persistence pass writing JSON then CSV. On a propagated error
nothing is written. -/
def run_evaluation (svc : Service) (ev : Evaluator) (t0 : Nat) (src : Source) :
    RunOutcome :=
  match load_prompt_pairs src with
  | Except.error e =>
    { err := some e, results := [], trace := [], jsonOut := none, csvOut := none }
  | Except.ok pairs =>
    let timestamp := t0
    match runLoop svc ev.model { time := t0, trace := [], results := [] } pairs with
    | (st, some e) =>
      { err := some e, results := st.results, trace := st.trace,
        jsonOut := none, csvOut := none }
    | (st, none) =>
      let j := save_results_json st.results ev.model timestamp
      let c := save_results_csv st.results
      { err := none
        results := st.results
        trace := st.trace ++ [Action.writeJson j, Action.writeCsv c]
        jsonOut := some j
        csvOut := some c }

/-! Specification-side descriptions of what a run over fully-formed
pairs produces, used to characterize the loop by induction. -/

/-- The neutral-framing record produced for pair p when its processing
starts at clock t: the timestamp is the clock after the neutral call
returns. -/
def neutralRecord (svc : Service) (model : String) (t : Nat) (p : PromptPair) :
    ResultRecord :=
  { prompt_id := p.id
    category := p.category
    base_question := p.base_question
    framing_type := "neutral"
    full_prompt := p.neutral_framing
    response := send_prompt svc p.neutral_framing
    timestamp := t + svc.duration p.neutral_framing
    model := model }

/-- The invested-framing record produced for pair p when its processing
starts at clock t: the timestamp is the clock after both calls return. -/
def investedRecord (svc : Service) (model : String) (t : Nat) (p : PromptPair) :
    ResultRecord :=
  { prompt_id := p.id
    category := p.category
    base_question := p.base_question
    framing_type := "invested"
    full_prompt := p.invested_framing
    response := send_prompt svc p.invested_framing
    timestamp := t + svc.duration p.neutral_framing + svc.duration p.invested_framing
    model := model }

/-- Total clock time consumed by the two calls of one pair. -/
def pairDuration (svc : Service) (p : PromptPair) : Nat :=
  svc.duration p.neutral_framing + svc.duration p.invested_framing

/-- The two records of one pair, neutral then invested. -/
def pairRecords (svc : Service) (model : String) (t : Nat) (p : PromptPair) :
    List ResultRecord :=
  [neutralRecord svc model t p, investedRecord svc model t p]

/-- The four trace actions of one pair: neutral call, neutral append,
invested call, invested append. -/
def pairTrace (svc : Service) (model : String) (t : Nat) (p : PromptPair) :
    List Action :=
  [Action.callService t p.neutral_framing,
   Action.appendRecord (neutralRecord svc model t p),
   Action.callService (t + svc.duration p.neutral_framing) p.invested_framing,
   Action.appendRecord (investedRecord svc model t p)]

/-- All records of a run over fully-formed pairs starting at clock t. -/
def runRecords (svc : Service) (model : String) : Nat → List PromptPair → List ResultRecord
  | _, [] => []
  | t, p :: rest =>
    pairRecords svc model t p ++ runRecords svc model (t + pairDuration svc p) rest

/-- The loop trace of a run over fully-formed pairs starting at clock t. -/
def runTrace (svc : Service) (model : String) : Nat → List PromptPair → List Action
  | _, [] => []
  | t, p :: rest =>
    pairTrace svc model t p ++ runTrace svc model (t + pairDuration svc p) rest

/-- The clock value after processing a list of fully-formed pairs. -/
def endTime (svc : Service) : Nat → List PromptPair → Nat
  | t, [] => t
  | t, p :: rest => endTime svc (t + pairDuration svc p) rest

/-! Characterization lemmas for the loop. -/

theorem processPair_toRaw (svc : Service) (model : String) (st : RunState)
    (p : PromptPair) :
    processPair svc model st p.toRaw =
      ({ time := st.time + pairDuration svc p
         trace := st.trace ++ pairTrace svc model st.time p
         results := st.results ++ pairRecords svc model st.time p }, none) := by
  simp [processPair, PromptPair.toRaw, sendTimed, appendRec, pairTrace, pairRecords,
    neutralRecord, investedRecord, pairDuration, Nat.add_assoc]

theorem runLoop_valid_append (svc : Service) (model : String)
    (ps : List PromptPair) :
    ∀ (st : RunState) (l : List RawPair),
    runLoop svc model st (ps.map PromptPair.toRaw ++ l) =
      runLoop svc model
        { time := endTime svc st.time ps
          trace := st.trace ++ runTrace svc model st.time ps
          results := st.results ++ runRecords svc model st.time ps } l := by
  induction ps with
  | nil => intro st l; simp [runTrace, runRecords, endTime]
  | cons p rest ih =>
    intro st l
    simp only [List.map_cons, List.cons_append, runLoop, processPair_toRaw, List.append_eq]
    rw [ih]
    simp [runTrace, runRecords, endTime, List.append_assoc]

theorem runLoop_valid (svc : Service) (model : String) (st : RunState)
    (ps : List PromptPair) :
    runLoop svc model st (ps.map PromptPair.toRaw) =
      ({ time := endTime svc st.time ps
         trace := st.trace ++ runTrace svc model st.time ps
         results := st.results ++ runRecords svc model st.time ps }, none) := by
  have h := runLoop_valid_append svc model ps st []
  simpa [runLoop] using h

/-- Full characterization of a run over fully-formed pairs: it completes
without error, returns exactly the specification records, logs the loop
trace followed by the two writes, and emits both artifacts. -/
theorem run_evaluation_valid (svc : Service) (ev : Evaluator) (t0 : Nat)
    (ps : List PromptPair) :
    run_evaluation svc ev t0 (Source.valid (ps.map PromptPair.toRaw)) =
      { err := none
        results := runRecords svc ev.model t0 ps
        trace := runTrace svc ev.model t0 ps ++
          [Action.writeJson (save_results_json (runRecords svc ev.model t0 ps) ev.model t0),
           Action.writeCsv (save_results_csv (runRecords svc ev.model t0 ps))]
        jsonOut := some (save_results_json (runRecords svc ev.model t0 ps) ev.model t0)
        csvOut := some (save_results_csv (runRecords svc ev.model t0 ps)) } := by
  simp [run_evaluation, load_prompt_pairs, runLoop_valid]

theorem runRecords_length (svc : Service) (model : String) :
    ∀ (t : Nat) (ps : List PromptPair),
    (runRecords svc model t ps).length = 2 * ps.length := by
  intro t ps
  induction ps generalizing t with
  | nil => simp [runRecords]
  | cons p rest ih =>
    simp [runRecords, pairRecords, ih, Nat.mul_succ]

/-- Index-level characterization of a valid run: the record at position
2j is the neutral record of source pair j, the record at position 2j+1
its invested record (for a common pair start clock tj), and the two
corresponding service calls appear in the loop trace. -/
theorem run_valid_access (svc : Service) (model : String) (ps : List PromptPair) :
    ∀ (t j : Nat), ∀ hj : j < ps.length,
    ∃ tj,
      (runRecords svc model t ps)[2*j]? = some (neutralRecord svc model tj (ps.get ⟨j, hj⟩)) ∧
      (runRecords svc model t ps)[2*j+1]? = some (investedRecord svc model tj (ps.get ⟨j, hj⟩)) ∧
      Action.callService tj (ps.get ⟨j, hj⟩).neutral_framing ∈ runTrace svc model t ps ∧
      Action.callService (tj + svc.duration (ps.get ⟨j, hj⟩).neutral_framing)
        (ps.get ⟨j, hj⟩).invested_framing ∈ runTrace svc model t ps := by
  induction ps with
  | nil => intro t j hj; exact absurd hj (Nat.not_lt_zero j)
  | cons p rest ih =>
    intro t j hj
    cases j with
    | zero =>
      refine ⟨t, ?_, ?_, ?_, ?_⟩ <;>
        simp [runRecords, runTrace, pairRecords, pairTrace]
    | succ j' =>
      obtain ⟨tj, h1, h2, h3, h4⟩ :=
        ih (t + pairDuration svc p) j' (by simpa using Nat.lt_of_succ_lt_succ hj)
      have e1 : 2 * (j' + 1) = 2 * j' + 1 + 1 := by ring
      have e2 : 2 * (j' + 1) + 1 = 2 * j' + 1 + 1 + 1 := by ring
      refine ⟨tj, ?_, ?_, ?_, ?_⟩
      · rw [e1]
        simpa [runRecords, pairRecords, List.getElem?_cons_succ] using h1
      · rw [e2]
        simpa [runRecords, pairRecords, List.getElem?_cons_succ] using h2
      · simp only [runTrace, List.mem_append]
        right
        simpa using h3
      · simp only [runTrace, List.mem_append]
        right
        simpa using h4

theorem runTrace_noWrites (svc : Service) (model : String) :
    ∀ (t : Nat) (ps : List PromptPair) (a : Action),
    a ∈ runTrace svc model t ps → Action.isWrite a = false := by
  intro t ps
  induction ps generalizing t with
  | nil => intro a ha; simp [runTrace] at ha
  | cons p rest ih =>
    intro a ha
    simp only [runTrace, List.mem_append] at ha
    rcases ha with ha | ha
    · simp [pairTrace] at ha
      rcases ha with h | h | h | h <;> simp [h, Action.isWrite]
    · exact ih _ a ha

theorem runTrace_call_count (svc : Service) (model : String) :
    ∀ (t : Nat) (ps : List PromptPair),
    ((runTrace svc model t ps).filter Action.isCall).length = 2 * ps.length := by
  intro t ps
  induction ps generalizing t with
  | nil => simp [runTrace]
  | cons p rest ih =>
    simp [runTrace, pairTrace, List.filter_append, ih, Action.isCall, Nat.mul_succ]

/-- Even on a malformed pair, the loop body only ever extends the trace
with call and append actions, never with writes. -/
theorem processPair_trace_noWrites (svc : Service) (model : String)
    (st : RunState) (pair : RawPair) (a : Action)
    (ha : a ∈ (processPair svc model st pair).1.trace) :
    a ∈ st.trace ∨ Action.isWrite a = false := by
  rcases pair with ⟨i?, c?, b?, n?, v?⟩
  rcases i? with _ | i
  · exact Or.inl (by simpa [processPair] using ha)
  rcases c? with _ | c
  · exact Or.inl (by simpa [processPair] using ha)
  rcases b? with _ | b
  · exact Or.inl (by simpa [processPair] using ha)
  rcases n? with _ | n
  · exact Or.inl (by simpa [processPair] using ha)
  rcases v? with _ | v
  · simp only [processPair, sendTimed, appendRec] at ha
    simp only [List.append_assoc, List.mem_append] at ha
    rcases ha with h | h
    · exact Or.inl h
    · right
      simp at h
      rcases h with h | h <;> simp [h, Action.isWrite]
  · simp only [processPair, sendTimed, appendRec] at ha
    simp only [List.append_assoc, List.mem_append] at ha
    rcases ha with h | h
    · exact Or.inl h
    · right
      simp at h
      rcases h with h | h | h | h <;> simp [h, Action.isWrite]

theorem runLoop_trace_noWrites (svc : Service) (model : String) :
    ∀ (pairs : List RawPair) (st : RunState) (a : Action),
    a ∈ (runLoop svc model st pairs).1.trace →
    a ∈ st.trace ∨ Action.isWrite a = false := by
  intro pairs
  induction pairs with
  | nil => intro st a ha; exact Or.inl (by simpa [runLoop] using ha)
  | cons pair rest ih =>
    intro st a ha
    simp only [runLoop] at ha
    rcases hp : processPair svc model st pair with ⟨st1, e?⟩
    rcases e? with _ | e
    · rw [hp] at ha
      rcases ih st1 a ha with h | h
      · have := processPair_trace_noWrites svc model st pair a (by rw [hp]; exact h)
        exact this
      · exact Or.inr h
    · rw [hp] at ha
      exact processPair_trace_noWrites svc model st pair a (by rw [hp]; exact ha)

/-- Splitting the error marker: the marker text is the ERROR tag
followed by a blank and the failure description. -/
theorem error_marker_split (e : String) :
    "ERROR: " ++ e = "ERROR:" ++ (" " ++ e) := by
  rw [← String.append_assoc]
  rfl

/-- In the loop trace, whenever a record append immediately follows a
service call, the appended record belongs to that call: its timestamp
is the clock at the instant the call returned (invocation instant plus
call duration) and its full prompt is the prompt of that call. -/
theorem runTrace_call_append (svc : Service) (model : String) (ps : List PromptPair) :
    ∀ (t k tq : Nat) (q : String) (r : ResultRecord),
    (runTrace svc model t ps)[k]? = some (Action.callService tq q) →
    (runTrace svc model t ps)[k+1]? = some (Action.appendRecord r) →
    r.timestamp = tq + svc.duration q ∧ r.full_prompt = q := by
  induction ps with
  | nil => intro t k tq q r h1 _; simp [runTrace] at h1
  | cons p rest ih =>
    intro t k tq q r h1 h2
    simp only [runTrace, pairTrace, List.cons_append, List.nil_append] at h1 h2
    rcases k with _ | _ | _ | _ | k
    · simp only [List.getElem?_cons_zero, List.getElem?_cons_succ,
        Option.some.injEq] at h1 h2
      obtain ⟨rfl, rfl⟩ := (Action.callService.injEq ..).mp h1
      obtain rfl := (Action.appendRecord.injEq ..).mp h2
      simp [neutralRecord]
    · simp only [List.getElem?_cons_succ, List.getElem?_cons_zero] at h1
      simp at h1
    · simp only [List.getElem?_cons_succ, List.getElem?_cons_zero,
        Option.some.injEq] at h1 h2
      obtain ⟨rfl, rfl⟩ := (Action.callService.injEq ..).mp h1
      obtain rfl := (Action.appendRecord.injEq ..).mp h2
      simp [investedRecord, Nat.add_assoc]
    · simp only [List.getElem?_cons_succ, List.getElem?_cons_zero] at h1
      simp at h1
    · simp only [List.getElem?_cons_succ] at h1 h2
      exact ih (t + pairDuration svc p) k tq q r h1 h2

/-- A concrete service that always succeeds with the text OK and whose
calls each take one clock unit. -/
def svcEx : Service :=
  { respond := fun _ => Except.ok "OK", duration := fun _ => 1 }

/-- A concrete service that always fails with the description boom. -/
def svcFail : Service :=
  { respond := fun _ => Except.error "boom", duration := fun _ => 1 }

/-- A concrete evaluator with model identifier m. -/
def evEx : Evaluator := { api_key := "k", model := "m" }

/-- A concrete fully-formed prompt pair. -/
def pEx : PromptPair :=
  { id := "p1", category := "cat", base_question := "q",
    neutral_framing := "nf", invested_framing := "inv" }

/-- A concrete raw pair whose required field id is missing. -/
def badPair : RawPair :=
  { id := none, category := some "c2", base_question := some "q2",
    neutral_framing := some "nf2", invested_framing := some "inv2" }

/-! The claims. -/

/-- C1: for every valid source of N prompt pairs, run produces exactly
2N ResultRecords; each pair yields exactly two records in
neutral-then-invested order, pairs appear in source order, and no two
records of one pair are interleaved with records of another pair — the
records of source pair j sit exactly at positions 2j and 2j+1. -/
theorem claim1_two_records_per_pair_in_order (svc : Service) (ev : Evaluator)
    (t0 : Nat) (ps : List PromptPair) (j : Nat) (hj : j < ps.length) :
    (run_evaluation svc ev t0 (Source.valid (ps.map PromptPair.toRaw))).err = none ∧
    (run_evaluation svc ev t0 (Source.valid (ps.map PromptPair.toRaw))).results.length
      = 2 * ps.length ∧
    ((run_evaluation svc ev t0 (Source.valid (ps.map PromptPair.toRaw))).results[2*j]?).map
      ResultRecord.prompt_id = some (ps.get ⟨j, hj⟩).id ∧
    ((run_evaluation svc ev t0 (Source.valid (ps.map PromptPair.toRaw))).results[2*j]?).map
      ResultRecord.framing_type = some "neutral" ∧
    ((run_evaluation svc ev t0 (Source.valid (ps.map PromptPair.toRaw))).results[2*j]?).map
      ResultRecord.full_prompt = some (ps.get ⟨j, hj⟩).neutral_framing ∧
    ((run_evaluation svc ev t0 (Source.valid (ps.map PromptPair.toRaw))).results[2*j+1]?).map
      ResultRecord.prompt_id = some (ps.get ⟨j, hj⟩).id ∧
    ((run_evaluation svc ev t0 (Source.valid (ps.map PromptPair.toRaw))).results[2*j+1]?).map
      ResultRecord.framing_type = some "invested" ∧
    ((run_evaluation svc ev t0 (Source.valid (ps.map PromptPair.toRaw))).results[2*j+1]?).map
      ResultRecord.full_prompt = some (ps.get ⟨j, hj⟩).invested_framing := by
  obtain ⟨tj, h1, h2, _, _⟩ := run_valid_access svc ev.model ps t0 j hj
  rw [run_evaluation_valid]
  exact ⟨rfl, runRecords_length svc ev.model t0 ps,
    by simp [h1, neutralRecord], by simp [h1, neutralRecord], by simp [h1, neutralRecord],
    by simp [h2, investedRecord], by simp [h2, investedRecord], by simp [h2, investedRecord]⟩

theorem claim1_witness :
    (run_evaluation svcEx evEx 0 (Source.valid ([pEx].map PromptPair.toRaw))).err = none ∧
    (run_evaluation svcEx evEx 0 (Source.valid ([pEx].map PromptPair.toRaw))).results.length
      = 2 * [pEx].length ∧
    ((run_evaluation svcEx evEx 0 (Source.valid ([pEx].map PromptPair.toRaw))).results[2*0]?).map
      ResultRecord.prompt_id = some pEx.id ∧
    ((run_evaluation svcEx evEx 0 (Source.valid ([pEx].map PromptPair.toRaw))).results[2*0]?).map
      ResultRecord.framing_type = some "neutral" ∧
    ((run_evaluation svcEx evEx 0 (Source.valid ([pEx].map PromptPair.toRaw))).results[2*0]?).map
      ResultRecord.full_prompt = some pEx.neutral_framing ∧
    ((run_evaluation svcEx evEx 0 (Source.valid ([pEx].map PromptPair.toRaw))).results[2*0+1]?).map
      ResultRecord.prompt_id = some pEx.id ∧
    ((run_evaluation svcEx evEx 0 (Source.valid ([pEx].map PromptPair.toRaw))).results[2*0+1]?).map
      ResultRecord.framing_type = some "invested" ∧
    ((run_evaluation svcEx evEx 0 (Source.valid ([pEx].map PromptPair.toRaw))).results[2*0+1]?).map
      ResultRecord.full_prompt = some pEx.invested_framing :=
  claim1_two_records_per_pair_in_order svcEx evEx 0 [pEx] 0 (by decide)

/-- C2: for every pair and either framing, if the service call fails
then the corresponding ResultRecord response is the string ERROR
followed by a colon, a blank, and the failure description (so it starts
with the ERROR tag), the record is still present, the run completes
with all 2N records, and a failure on the neutral call does not prevent
the invested call from being attempted. -/
theorem claim2_error_marker_and_continuation (svc : Service) (ev : Evaluator)
    (t0 : Nat) (ps : List PromptPair) (j : Nat) (hj : j < ps.length) :
    (run_evaluation svc ev t0 (Source.valid (ps.map PromptPair.toRaw))).err = none ∧
    (run_evaluation svc ev t0 (Source.valid (ps.map PromptPair.toRaw))).results.length
      = 2 * ps.length ∧
    (∀ e, svc.respond (ps.get ⟨j, hj⟩).neutral_framing = Except.error e →
      ((run_evaluation svc ev t0 (Source.valid (ps.map PromptPair.toRaw))).results[2*j]?).map
        ResultRecord.response = some ("ERROR: " ++ e) ∧
      ∃ rest, ((run_evaluation svc ev t0 (Source.valid (ps.map PromptPair.toRaw))).results[2*j]?).map
        ResultRecord.response = some ("ERROR:" ++ rest)) ∧
    (∀ e, svc.respond (ps.get ⟨j, hj⟩).invested_framing = Except.error e →
      ((run_evaluation svc ev t0 (Source.valid (ps.map PromptPair.toRaw))).results[2*j+1]?).map
        ResultRecord.response = some ("ERROR: " ++ e) ∧
      ∃ rest, ((run_evaluation svc ev t0 (Source.valid (ps.map PromptPair.toRaw))).results[2*j+1]?).map
        ResultRecord.response = some ("ERROR:" ++ rest)) ∧
    (∃ t, Action.callService t (ps.get ⟨j, hj⟩).invested_framing
      ∈ (run_evaluation svc ev t0 (Source.valid (ps.map PromptPair.toRaw))).trace) := by
  obtain ⟨tj, h1, h2, _, h4⟩ := run_valid_access svc ev.model ps t0 j hj
  rw [run_evaluation_valid]
  refine ⟨rfl, runRecords_length svc ev.model t0 ps, ?_, ?_, ?_⟩
  · intro e he
    simp only [List.get_eq_getElem] at he
    constructor
    · simp [h1, neutralRecord, send_prompt, he]
    · exact ⟨" " ++ e, by simp [h1, neutralRecord, send_prompt, he, error_marker_split]⟩
  · intro e he
    simp only [List.get_eq_getElem] at he
    constructor
    · simp [h2, investedRecord, send_prompt, he]
    · exact ⟨" " ++ e, by simp [h2, investedRecord, send_prompt, he, error_marker_split]⟩
  · exact ⟨tj + svc.duration (ps.get ⟨j, hj⟩).neutral_framing,
      List.mem_append.mpr (Or.inl h4)⟩

theorem claim2_witness :
    (run_evaluation svcFail evEx 0 (Source.valid ([pEx].map PromptPair.toRaw))).err = none ∧
    (run_evaluation svcFail evEx 0 (Source.valid ([pEx].map PromptPair.toRaw))).results.length
      = 2 * [pEx].length ∧
    ((run_evaluation svcFail evEx 0 (Source.valid ([pEx].map PromptPair.toRaw))).results[2*0]?).map
      ResultRecord.response = some ("ERROR: " ++ "boom") ∧
    ((run_evaluation svcFail evEx 0 (Source.valid ([pEx].map PromptPair.toRaw))).results[2*0+1]?).map
      ResultRecord.response = some ("ERROR: " ++ "boom") ∧
    (∃ t, Action.callService t pEx.invested_framing
      ∈ (run_evaluation svcFail evEx 0 (Source.valid ([pEx].map PromptPair.toRaw))).trace) := by
  obtain ⟨a, b, c, d, e⟩ :=
    claim2_error_marker_and_continuation svcFail evEx 0 [pEx] 0 (by decide)
  exact ⟨a, b, (c "boom" rfl).1, (d "boom" rfl).1, e⟩

/-- C3 counterexample: for the concrete source whose second pair is
missing the required field id, the load operation does not fail — it
returns the pairs unvalidated — and by the time the run aborts, two
service calls (both calls of the first pair) have already been issued.
This refutes both parts of the claim at an explicit input. -/
theorem claim3_counterexample :
    load_prompt_pairs (Source.valid [pEx.toRaw, badPair])
      = Except.ok [pEx.toRaw, badPair] ∧
    (run_evaluation svcEx evEx 0 (Source.valid [pEx.toRaw, badPair])).err
      = some "KeyError: id" ∧
    (run_evaluation svcEx evEx 0 (Source.valid [pEx.toRaw, badPair])).trace.filter
      Action.isCall = [Action.callService 0 "nf", Action.callService 1 "inv"] := by
  refine ⟨rfl, ?_, ?_⟩ <;> rfl

/-- C3 amended: the load operation does not itself validate required
fields — it accepts the source unchanged; when a pair is missing the
field id, the run then fails with a key error at the point the field is
accessed, after both service calls of every earlier pair have already
been issued, and no output artifact is written. -/
theorem claim3_amended_keyerror_midrun (svc : Service) (ev : Evaluator) (t0 : Nat)
    (pre : List PromptPair) (bad : RawPair) (hbad : bad.id = none)
    (rest : List RawPair) :
    load_prompt_pairs (Source.valid (pre.map PromptPair.toRaw ++ bad :: rest))
      = Except.ok (pre.map PromptPair.toRaw ++ bad :: rest) ∧
    (run_evaluation svc ev t0 (Source.valid (pre.map PromptPair.toRaw ++ bad :: rest))).err
      = some "KeyError: id" ∧
    (run_evaluation svc ev t0 (Source.valid (pre.map PromptPair.toRaw ++ bad :: rest))).trace
      = runTrace svc ev.model t0 pre ∧
    ((run_evaluation svc ev t0 (Source.valid (pre.map PromptPair.toRaw ++ bad :: rest))).trace.filter
      Action.isCall).length = 2 * pre.length ∧
    (run_evaluation svc ev t0 (Source.valid (pre.map PromptPair.toRaw ++ bad :: rest))).jsonOut
      = none ∧
    (run_evaluation svc ev t0 (Source.valid (pre.map PromptPair.toRaw ++ bad :: rest))).csvOut
      = none := by
  have hrun : run_evaluation svc ev t0 (Source.valid (pre.map PromptPair.toRaw ++ bad :: rest))
      = { err := some "KeyError: id"
          results := runRecords svc ev.model t0 pre
          trace := runTrace svc ev.model t0 pre
          jsonOut := none
          csvOut := none } := by
    simp only [run_evaluation, load_prompt_pairs]
    rw [runLoop_valid_append]
    simp [runLoop, processPair, hbad]
  rw [hrun]
  exact ⟨rfl, rfl, rfl, runTrace_call_count svc ev.model t0 pre, rfl, rfl⟩

theorem claim3_amended_witness :
    load_prompt_pairs (Source.valid ([pEx].map PromptPair.toRaw ++ badPair :: []))
      = Except.ok ([pEx].map PromptPair.toRaw ++ badPair :: []) ∧
    (run_evaluation svcEx evEx 0 (Source.valid ([pEx].map PromptPair.toRaw ++ badPair :: []))).err
      = some "KeyError: id" ∧
    (run_evaluation svcEx evEx 0 (Source.valid ([pEx].map PromptPair.toRaw ++ badPair :: []))).trace
      = runTrace svcEx evEx.model 0 [pEx] ∧
    ((run_evaluation svcEx evEx 0 (Source.valid ([pEx].map PromptPair.toRaw ++ badPair :: []))).trace.filter
      Action.isCall).length = 2 * [pEx].length ∧
    (run_evaluation svcEx evEx 0 (Source.valid ([pEx].map PromptPair.toRaw ++ badPair :: []))).jsonOut
      = none ∧
    (run_evaluation svcEx evEx 0 (Source.valid ([pEx].map PromptPair.toRaw ++ badPair :: []))).csvOut
      = none :=
  claim3_amended_keyerror_midrun svcEx evEx 0 [pEx] badPair rfl []

/-- C4: for every run that emits its artifacts, the tabular and the
structured outputs are derived from the identical record sequence and
agree field for field: for every index i and every field, data row i of
the tabular document (row i+1 counting the header) equals the field
values, in column order, of record i of the results array of the
structured document, with the timestamp rendered as text. -/
theorem claim4_csv_matches_json (svc : Service) (ev : Evaluator) (t0 : Nat)
    (src : Source) (d : JsonDoc) (tab : List (List String))
    (hd : (run_evaluation svc ev t0 src).jsonOut = some d)
    (hc : (run_evaluation svc ev t0 src).csvOut = some tab) :
    tab.length = d.results.length + 1 ∧
    ∀ i : Nat, tab[i+1]? = (d.results[i]?).map (fun r =>
      [r.prompt_id, r.category, r.base_question, r.framing_type,
       r.full_prompt, r.response, toString r.timestamp, r.model]) := by
  rcases src with e | pairs
  · simp [run_evaluation, load_prompt_pairs] at hd
  · rcases hloop : runLoop svc ev.model { time := t0, trace := [], results := [] } pairs
      with ⟨st, e?⟩
    rcases e? with _ | e
    · simp only [run_evaluation, load_prompt_pairs, hloop, Option.some.injEq] at hd hc
      subst hd
      subst hc
      constructor
      · simp [save_results_csv, save_results_json]
      · intro i
        rcases hr : (save_results_json st.results ev.model t0).results[i]? with _ | r
        · simp only [save_results_json] at hr
          simp [save_results_csv, save_results_json, List.getElem?_cons_succ, hr]
        · simp only [save_results_json] at hr
          simp [save_results_csv, save_results_json, List.getElem?_cons_succ, hr, recordToRow]
    · simp [run_evaluation, load_prompt_pairs, hloop] at hd

theorem claim4_witness :
    (save_results_csv (runRecords svcEx evEx.model 0 [pEx])).length
      = (save_results_json (runRecords svcEx evEx.model 0 [pEx]) evEx.model 0).results.length + 1 ∧
    (save_results_csv (runRecords svcEx evEx.model 0 [pEx]))[0+1]?
      = some ["p1", "cat", "q", "neutral", "nf", "OK", "1", "m"] := by
  obtain ⟨h1, h2⟩ := claim4_csv_matches_json svcEx evEx 0
    (Source.valid ([pEx].map PromptPair.toRaw))
    (save_results_json (runRecords svcEx evEx.model 0 [pEx]) evEx.model 0)
    (save_results_csv (runRecords svcEx evEx.model 0 [pEx]))
    (by rw [run_evaluation_valid]) (by rw [run_evaluation_valid])
  exact ⟨h1, (h2 0).trans (by decide)⟩

/-- C6: for every run that emits its artifacts, the structured document
has the shape metadata (timestamp, model identifier, total prompts)
plus results, and the tabular document begins with the header row whose
columns are exactly prompt id, category, base question, framing type,
full prompt, response, timestamp, model, followed by one row per
ResultRecord in the same order as the results array of the structured
document. The model identifier of the specification is stored under the
key named model. -/
theorem claim6_output_document_shapes (svc : Service) (ev : Evaluator) (t0 : Nat)
    (src : Source) (d : JsonDoc) (tab : List (List String))
    (hd : (run_evaluation svc ev t0 src).jsonOut = some d)
    (hc : (run_evaluation svc ev t0 src).csvOut = some tab) :
    d.metadata.timestamp = t0 ∧
    d.metadata.model = ev.model ∧
    d.metadata.total_prompts = d.results.length ∧
    d.results = (run_evaluation svc ev t0 src).results ∧
    tab = ["prompt_id", "category", "base_question", "framing_type",
         "full_prompt", "response", "timestamp", "model"]
        :: d.results.map recordToRow := by
  rcases src with e | pairs
  · simp [run_evaluation, load_prompt_pairs] at hd
  · rcases hloop : runLoop svc ev.model { time := t0, trace := [], results := [] } pairs
      with ⟨st, e?⟩
    rcases e? with _ | e
    · simp only [run_evaluation, load_prompt_pairs, hloop, Option.some.injEq] at hd hc
      subst hd
      subst hc
      refine ⟨rfl, rfl, rfl, ?_, rfl⟩
      simp [run_evaluation, load_prompt_pairs, hloop, save_results_json]
    · simp [run_evaluation, load_prompt_pairs, hloop] at hd

theorem claim6_witness :
    (save_results_json (runRecords svcEx evEx.model 0 [pEx]) evEx.model 0).metadata.timestamp = 0 ∧
    (save_results_json (runRecords svcEx evEx.model 0 [pEx]) evEx.model 0).metadata.model = evEx.model ∧
    (save_results_json (runRecords svcEx evEx.model 0 [pEx]) evEx.model 0).metadata.total_prompts
      = (save_results_json (runRecords svcEx evEx.model 0 [pEx]) evEx.model 0).results.length ∧
    (save_results_json (runRecords svcEx evEx.model 0 [pEx]) evEx.model 0).results
      = (run_evaluation svcEx evEx 0 (Source.valid ([pEx].map PromptPair.toRaw))).results ∧
    save_results_csv (runRecords svcEx evEx.model 0 [pEx])
      = ["prompt_id", "category", "base_question", "framing_type",
         "full_prompt", "response", "timestamp", "model"]
        :: (save_results_json (runRecords svcEx evEx.model 0 [pEx]) evEx.model 0).results.map recordToRow :=
  claim6_output_document_shapes svcEx evEx 0 (Source.valid ([pEx].map PromptPair.toRaw))
    (save_results_json (runRecords svcEx evEx.model 0 [pEx]) evEx.model 0)
    (save_results_csv (runRecords svcEx evEx.model 0 [pEx]))
    (by rw [run_evaluation_valid]) (by rw [run_evaluation_valid])

/-- C5 counterexample: in the concrete run over one pair with a service
whose call takes one clock unit, the first trace action is the neutral
call issued at instant 0, yet the corresponding ResultRecord carries
timestamp 1 — the clock after the call completed — so the timestamp is
not the wall-clock time at the instant the call is invoked. -/
theorem claim5_counterexample :
    (run_evaluation svcEx evEx 0 (Source.valid [pEx.toRaw])).trace[0]?
      = some (Action.callService 0 "nf") ∧
    ((run_evaluation svcEx evEx 0 (Source.valid [pEx.toRaw])).results[0]?).map
      ResultRecord.timestamp = some 1 ∧
    ¬ ((run_evaluation svcEx evEx 0 (Source.valid [pEx.toRaw])).results[0]?).map
      ResultRecord.timestamp = some 0 := by
  refine ⟨rfl, rfl, ?_⟩
  decide

/-- C5 amended: the timestamp of each ResultRecord is the wall-clock
time captured when the record is created, immediately after its service
call returns — the invocation instant of that call plus the call
duration — not the batch start time; each of the two calls in a pair
gets its own capture, because every record appended immediately after a
call in the trace is stamped with the completion clock of exactly that
call and carries that call as its full prompt. -/
theorem claim5_amended_timestamp_after_call (svc : Service) (ev : Evaluator)
    (t0 : Nat) (ps : List PromptPair) (k tq : Nat) (q : String) (r : ResultRecord)
    (hcall : (run_evaluation svc ev t0 (Source.valid (ps.map PromptPair.toRaw))).trace[k]?
      = some (Action.callService tq q))
    (happ : (run_evaluation svc ev t0 (Source.valid (ps.map PromptPair.toRaw))).trace[k+1]?
      = some (Action.appendRecord r)) :
    r.timestamp = tq + svc.duration q ∧ r.full_prompt = q := by
  rw [run_evaluation_valid] at hcall happ
  simp only at hcall happ
  by_cases hk : k < (runTrace svc ev.model t0 ps).length
  · rw [List.getElem?_append_left hk] at hcall
    by_cases hk1 : k + 1 < (runTrace svc ev.model t0 ps).length
    · rw [List.getElem?_append_left hk1] at happ
      exact runTrace_call_append svc ev.model ps t0 k tq q r hcall happ
    · rw [List.getElem?_append_right (by omega)] at happ
      have h0 : k + 1 - (runTrace svc ev.model t0 ps).length = 0 := by omega
      rw [h0] at happ
      simp at happ
  · rw [List.getElem?_append_right (by omega)] at hcall
    rcases hd : k - (runTrace svc ev.model t0 ps).length with _ | _ | n <;>
      rw [hd] at hcall <;> simp at hcall

theorem claim5_amended_witness :
    ({ prompt_id := "p1", category := "cat", base_question := "q",
       framing_type := "neutral", full_prompt := "nf", response := "OK",
       timestamp := 1, model := "m" } : ResultRecord).timestamp
      = 0 + svcEx.duration "nf" ∧
    ({ prompt_id := "p1", category := "cat", base_question := "q",
       framing_type := "neutral", full_prompt := "nf", response := "OK",
       timestamp := 1, model := "m" } : ResultRecord).full_prompt = "nf" :=
  claim5_amended_timestamp_after_call svcEx evEx 0 [pEx] 0 0 "nf"
    { prompt_id := "p1", category := "cat", base_question := "q",
      framing_type := "neutral", full_prompt := "nf", response := "OK",
      timestamp := 1, model := "m" }
    (by decide) (by decide)

/-- C7: for every run, persistence happens exactly once and only at the
very end: the write actions in the trace are exactly the JSON write and
the CSV write of the emitted artifacts when the run completes (and none
when it aborts), and the trace splits into an action sequence free of
writes — all service calls and record appends — followed by the writes,
so an interruption during pair processing leaves no output written. -/
theorem claim7_persistence_once_at_end (svc : Service) (ev : Evaluator)
    (t0 : Nat) (src : Source) :
    ((run_evaluation svc ev t0 src).trace.filter Action.isWrite =
      match (run_evaluation svc ev t0 src).jsonOut, (run_evaluation svc ev t0 src).csvOut with
      | some d, some tab => [Action.writeJson d, Action.writeCsv tab]
      | _, _ => []) ∧
    ∃ pre post, (run_evaluation svc ev t0 src).trace = pre ++ post ∧
      (∀ a ∈ pre, Action.isWrite a = false) ∧
      (∀ a ∈ post, Action.isWrite a = true) := by
  rcases src with e | pairs
  · refine ⟨by simp [run_evaluation, load_prompt_pairs], [], [], by simp [run_evaluation, load_prompt_pairs], ?_, ?_⟩ <;> simp
  · rcases hloop : runLoop svc ev.model { time := t0, trace := [], results := [] } pairs
      with ⟨st, e?⟩
    have hnw : ∀ a ∈ st.trace, Action.isWrite a = false := by
      intro a ha
      have := runLoop_trace_noWrites svc ev.model pairs
        { time := t0, trace := [], results := [] } a (by rw [hloop]; exact ha)
      exact this.resolve_left (by simp)
    rcases e? with _ | e
    · refine ⟨?_, st.trace,
        [Action.writeJson (save_results_json st.results ev.model t0),
         Action.writeCsv (save_results_csv st.results)], ?_, hnw, ?_⟩
      · simp only [run_evaluation, load_prompt_pairs, hloop]
        rw [List.filter_append, List.filter_eq_nil_iff.mpr (by simpa using hnw)]
        simp [Action.isWrite]
      · simp [run_evaluation, load_prompt_pairs, hloop]
      · intro a ha
        simp at ha
        rcases ha with h | h <;> simp [h, Action.isWrite]
    · refine ⟨?_, st.trace, [], ?_, hnw, by simp⟩
      · simp only [run_evaluation, load_prompt_pairs, hloop]
        rw [List.filter_eq_nil_iff.mpr (by simpa using hnw)]
      · simp [run_evaluation, load_prompt_pairs, hloop]

/-- C8: if no service credential is available at startup — the
parameter is absent or empty and the environment variable is absent or
empty — constructing the evaluator fails with the configuration error,
so no evaluator value exists on which a run could start; the
initializer takes no service and issues no service call. -/
theorem claim8_missing_credential_fails_init (api_key env_key : Option String)
    (model : String) (h1 : falsy api_key = true) (h2 : falsy env_key = true) :
    initEvaluator api_key env_key model =
      Except.error
        "No API key found. Please set ANTHROPIC_API_KEY in .env file or pass api_key parameter." := by
  simp [initEvaluator, h1, h2]

theorem claim8_witness :
    initEvaluator none none "claude-3-5-sonnet-20241022" =
      Except.error
        "No API key found. Please set ANTHROPIC_API_KEY in .env file or pass api_key parameter." :=
  claim8_missing_credential_fails_init none none "claude-3-5-sonnet-20241022" rfl rfl

/-- C9: for a source containing zero pairs, run returns an empty result
sequence, makes no service calls, and still writes both artifacts: the
structured document with an empty results array (and total prompts 0)
and the tabular document consisting of the header row alone. -/
theorem claim9_empty_source (svc : Service) (ev : Evaluator) (t0 : Nat) :
    run_evaluation svc ev t0 (Source.valid []) =
      { err := none
        results := []
        trace := [Action.writeJson
                    { metadata := { timestamp := t0, model := ev.model, total_prompts := 0 }
                      results := [] },
                  Action.writeCsv [fieldnames]]
        jsonOut := some { metadata := { timestamp := t0, model := ev.model, total_prompts := 0 }
                          results := [] }
        csvOut := some [fieldnames] } ∧
    (run_evaluation svc ev t0 (Source.valid [])).trace.filter Action.isCall = [] := by
  exact ⟨rfl, rfl⟩

/-- C10: for every run over N fully-formed pairs, the metadata field
total prompts of the structured output equals the number of
ResultRecords, which is 2N — the number of individual service calls
attempted — not the number of prompt pairs N. -/
theorem claim10_total_prompts_counts_calls (svc : Service) (ev : Evaluator)
    (t0 : Nat) (ps : List PromptPair) :
    ((run_evaluation svc ev t0 (Source.valid (ps.map PromptPair.toRaw))).jsonOut).map
      (fun d => d.metadata.total_prompts) = some (2 * ps.length) ∧
    ((run_evaluation svc ev t0 (Source.valid (ps.map PromptPair.toRaw))).jsonOut).map
      (fun d => d.metadata.total_prompts)
      = some (((run_evaluation svc ev t0 (Source.valid (ps.map PromptPair.toRaw))).trace.filter
          Action.isCall).length) ∧
    (run_evaluation svc ev t0 (Source.valid (ps.map PromptPair.toRaw))).results.length
      = 2 * ps.length := by
  rw [run_evaluation_valid]
  refine ⟨?_, ?_, ?_⟩
  · simp [save_results_json, runRecords_length]
  · simp [save_results_json, runRecords_length, List.filter_append,
      runTrace_call_count, Action.isCall]
  · exact runRecords_length svc ev.model t0 ps

end SycophancyEval
